import Mathlib

/-
Shallow embedding of wp-plugin-downlauditor.py, a WordPress plugin
downloader and auditor backed by an SQLite store with two tables:
Plugins (catalog snapshot, primary key slug+version, INSERT OR REPLACE)
and Audit (semgrep findings, primary key slug+version+file_path+check_id+
start_line+end_line, INSERT OR IGNORE).

Modelling conventions:
- SQL tables are lists of rows; row order inside a table is incidental.
- Dates and timestamps are modelled as integers (days); the Python code
  normalises them to a canonical sortable string format, so chronological
  comparison of the stored strings coincides with integer comparison here.
- Python dict access with square brackets is modelled as a plain field
  (the supported domain of the code requires the key to be present);
  dict.get with a default is modelled as Option plus getD.
- A missing last_time_scanned key defaults to the integer 0, exactly as
  plugin.get applies the default in insert_plugins_row.
-/

namespace WpAudit

/-- Remote plugin metadata as returned by the WordPress plugin API and
consumed by insert_plugins_row. Fields read with dict.get carry Option. -/
structure PluginMeta where
  slug : String
  version : String
  author : String
  active_installs : Option Int
  downloaded : Option Int
  last_updated : Option Int
  added : Option Int
  download_link : String
  last_time_scanned : Option Int
deriving DecidableEq, Repr

/-- One row of the Plugins table (create_plugins_table, lines 112-131). -/
structure PluginRow where
  slug : String
  version : String
  author : String
  active_installs : Int
  downloaded : Int
  last_updated : Option Int
  added_date : Option Int
  download_link : String
  last_time_scanned : Int
deriving DecidableEq, Repr

/-- The data tuple prepared by insert_plugins_row (lines 165-186): defaults
0 for active_installs, downloaded and last_time_scanned; timestamps are
reformatted to a canonical form, which is the identity in this model. -/
def rowOfPlugin (p : PluginMeta) : PluginRow :=
  { slug := p.slug
  , version := p.version
  , author := p.author
  , active_installs := p.active_installs.getD 0
  , downloaded := p.downloaded.getD 0
  , last_updated := p.last_updated
  , added_date := p.added
  , download_link := p.download_link
  , last_time_scanned := p.last_time_scanned.getD 0 }

/-- Does a Plugins row carry the given primary key (slug, version)? -/
def pluginKeyMatch (s v : String) (r : PluginRow) : Bool :=
  r.slug == s && r.version == v

/-- SQLite INSERT OR REPLACE on the Plugins table: any row conflicting on
the primary key (slug, version) is deleted and the new row inserted. -/
def insertOrReplace (t : List PluginRow) (r : PluginRow) : List PluginRow :=
  t.filter (fun x => !(pluginKeyMatch r.slug r.version x)) ++ [r]

/-- insert_plugins_row (lines 159-193): prepare the tuple from the plugin
metadata and INSERT OR REPLACE it into the Plugins table. -/
def insert_plugins_row (t : List PluginRow) (p : PluginMeta) : List PluginRow :=
  insertOrReplace t (rowOfPlugin p)

/-- SELECT the row with the given primary key, if any. -/
def findPluginRow (t : List PluginRow) (s v : String) : Option PluginRow :=
  t.find? (pluginKeyMatch s v)

/-- Number of rows carrying the given primary key (slug, version). -/
def countPluginRows (t : List PluginRow) (s v : String) : Nat :=
  (t.filter (pluginKeyMatch s v)).length

/-- One row of the Audit table (create_audit_table, lines 133-157). -/
structure AuditRow where
  slug : String
  version : String
  file_path : String
  check_id : String
  severity : String
  impact : String
  likelihood : String
  confidence : String
  start_line : Int
  end_line : Int
  vuln_lines : String
  message : String
  date_discovered : Int
  triaged : Bool
deriving DecidableEq, Repr

/-- Does an Audit row carry the given primary key
(slug, version, file_path, check_id, start_line, end_line)? -/
def auditKeyMatch (s v fp cid : String) (sl el : Int) (r : AuditRow) : Bool :=
  r.slug == s && r.version == v && r.file_path == fp && r.check_id == cid
    && r.start_line == sl && r.end_line == el

/-- The primary key of an Audit row, as a tuple. -/
def auditKey (r : AuditRow) : String × String × String × String × Int × Int :=
  (r.slug, r.version, r.file_path, r.check_id, r.start_line, r.end_line)

/-- SQLite INSERT OR IGNORE on the Audit table: if a row with the same
primary key exists, the statement is a no-op; otherwise the row is added. -/
def insertOrIgnore (t : List AuditRow) (r : AuditRow) : List AuditRow :=
  if t.any (fun x => auditKeyMatch r.slug r.version r.file_path r.check_id
      r.start_line r.end_line x) then t else t ++ [r]

/-- One entry of the semgrep JSON results array, as read by
insert_result_row (lines 201-216). -/
structure SemgrepItem where
  path : String
  check_id : String
  severity : String
  impact : String
  likelihood : String
  confidence : String
  start_line : Int
  end_line : Int
  lines : String
  message : String
deriving DecidableEq, Repr

/-- The Audit tuple built by insert_result_row: triaged is always False and
date_discovered is the current date on first insertion. -/
def rowOfItem (item : SemgrepItem) (pluginName lastVersion : String)
    (today : Int) : AuditRow :=
  { slug := pluginName
  , version := lastVersion
  , file_path := item.path
  , check_id := item.check_id
  , severity := item.severity
  , impact := item.impact
  , likelihood := item.likelihood
  , confidence := item.confidence
  , start_line := item.start_line
  , end_line := item.end_line
  , vuln_lines := item.lines
  , message := item.message
  , date_discovered := today
  , triaged := false }

/-- insert_result_row (lines 195-223): build the finding tuple and
INSERT OR IGNORE it into the Audit table. -/
def insert_result_row (t : List AuditRow) (item : SemgrepItem)
    (pluginName lastVersion : String) (today : Int) : List AuditRow :=
  insertOrIgnore t (rowOfItem item pluginName lastVersion today)

/-- SQL LIKE with percent wildcards on both sides: substring containment.
Used by the author LIKE condition of get_filtered_plugins. -/
def likeContains (hay sub : String) : Bool :=
  (List.range (hay.data.length + 1)).any (fun i => sub.data.isPrefixOf (hay.data.drop i))

/-- get_filtered_plugins (lines 225-263): SELECT slug FROM Plugins with the
optional conditions author LIKE percent-author-percent, last_updated at or
after a threshold, and active_installs at least the given minimum. The
threshold (line 242) is now minus 24 * 30 days, with the literal 24: the
value inside the last_updated argument only decides whether the condition
is attached, never the width of the window. A NULL last_updated fails the
comparison, as in SQL. -/
def get_filtered_plugins (t : List PluginRow) (author : Option String)
    (last_updated : Option Int) (active_installs : Option Int)
    (now : Int) : List String :=
  (t.filter (fun r =>
    (match author with
     | none => true
     | some a => likeContains r.author a)
    &&
    (match last_updated with
     | none => true
     | some _ =>
        match r.last_updated with
        | none => false
        | some lu => decide (now - 24 * 30 ≤ lu))
    &&
    (match active_installs with
     | none => true
     | some ai => decide (ai ≤ r.active_installs)))).map (fun r => r.slug)

/-- The per-plugin filter of the download pass (lines 304-328): skip when
the parsed last_updated is more than months * 30 days old, then skip when
active_installs is below the minimum. A missing value models the parse
failure branch (ValueError or the bare except), which also skips. Returns
true when the plugin proceeds to download. -/
def download_pass_filter (today months minInstalls : Int)
    (p : PluginMeta) : Bool :=
  match p.last_updated with
  | none => false
  | some lu =>
    if today - lu > months * 30 then false
    else
      match p.active_installs with
      | none => false
      | some ai => decide (minInstalls ≤ ai)

/-- Python string comparison, lexicographic on code points, on char lists. -/
def pyStrLt : List Char → List Char → Bool
  | [], [] => false
  | [], _ :: _ => true
  | _ :: _, [] => false
  | a :: as, b :: bs =>
      if a.toNat < b.toNat then true
      else if b.toNat < a.toNat then false
      else pyStrLt as bs

/-- Stable insertion into a descending list: the new element goes in front
of the first strictly smaller element, matching Python list.sort with
reverse set, which is a stable descending sort. -/
def insertDesc (v : String) : List String → List String
  | [] => [v]
  | w :: ws => if pyStrLt w.data v.data then v :: w :: ws else w :: insertDesc v ws

/-- versions.sort(reverse=True) at line 513: sort the version strings in
descending lexicographic order. -/
def sortVersionsDesc : List String → List String
  | [] => []
  | v :: vs => insertDesc v (sortVersionsDesc vs)

/-- Lines 513-514: the latest local version of a plugin is the head of the
version list sorted in reverse lexical order. -/
def local_last_version (versions : List String) : Option String :=
  (sortVersionsDesc versions).head?

/-- The database update step of the audit pass (lines 549-558): fetch the
current remote metadata M for the scanned plugin; when the remote version
differs from the local latest version L, first record M itself as a catalog
update; then overwrite the version field with L and the last_time_scanned
field with the current date, and record the scan row. -/
def audit_db_step (t : List PluginRow) (M : PluginMeta) (L : String)
    (today : Int) : List PluginRow :=
  let t1 := if M.version ≠ L then insert_plugins_row t M else t
  insert_plugins_row t1 { M with version := L, last_time_scanned := some today }

/-- The persisted store: the Plugins table and the Audit table. -/
structure DB where
  plugins : List PluginRow
  audit : List AuditRow
deriving DecidableEq, Repr

/-- The clear-results block of main (lines 577-585): DELETE every row of
the Audit table and UPDATE every Plugins row setting last_time_scanned
to 0. -/
def clear_results (db : DB) : DB :=
  { plugins := db.plugins.map (fun r => { r with last_time_scanned := 0 })
  , audit := [] }

/-- Outcome of the HTTP request issued by get_slugs_from_svn. -/
inductive HttpOutcome where
  | success (slugs : List String)
  | httpStatus (code : Nat)
  | requestExc (msg : String)
deriving DecidableEq, Repr

/-- get_slugs_from_svn (lines 377-400): on HTTP 200 return the slug list
extracted from the directory listing; on any other status or on a request
exception, log the failure and return None. -/
def get_slugs_from_svn (resp : HttpOutcome) : Option (List String) :=
  match resp with
  | HttpOutcome.success slugs => some slugs
  | HttpOutcome.httpStatus _ => none
  | HttpOutcome.requestExc _ => none

/-- Python len applied to a value that may be None: len of None raises
TypeError, modelled as the error branch of Except. -/
def pyLen (x : Option (List String)) : Except String Nat :=
  match x with
  | some l => Except.ok l.length
  | none => Except.error "TypeError: object of type NoneType has no len()"

/-- Python subscript access on a value that may be None: subscripting None
raises TypeError, modelled as the error branch of Except. -/
def pySubscript {α : Type} (x : Option α) : Except String α :=
  match x with
  | some v => Except.ok v
  | none => Except.error "TypeError: NoneType object is not subscriptable"

/-- The info header of the first page returned by the paginated WP search
API, as read at lines 285-286. -/
structure WpApiPage where
  pages : Nat
  results : Nat
  plugins : List String
deriving DecidableEq, Repr

/-- Lines 280-281 of download_plugins in bulk mode: slug_list is the result
of get_slugs_from_svn and total_plugins is len(slug_list). Nothing in
download_plugins or in main catches the TypeError raised when the fetch
failed and the result is None. -/
def download_plugins_bulk_enumerate (resp : HttpOutcome) : Except String Nat :=
  pyLen (get_slugs_from_svn resp)

/-- Lines 284-286 of download_plugins in filtered mode: the first page is
the result of get_slugs_from_svn_wp_api, which returns None on a non-200
status; total_pages reads data at the key info. Nothing in
download_plugins or in main catches the TypeError raised when data is
None. -/
def download_plugins_filtered_enumerate (firstPage : Option WpApiPage) :
    Except String Nat := do
  let data ← pySubscript firstPage
  pure data.pages

/-- Characters admitted by the sanitisation regex of save_plugin at lines
344-345: letters, digits, dot, underscore, hyphen. -/
def versionCharOk (c : Char) : Bool :=
  c.isAlphanum || c == '.' || c == '_' || c == '-'

/-- save_plugin sanitisation (lines 344-345): drop every character outside
the safe subset from the version string before using it as a path. -/
def sanitize_version (v : String) : String :=
  String.mk (v.data.filter versionCharOk)

/-- The local filesystem, as the list of existing paths (directories and
files alike), each path a list of segments. -/
structure FS where
  paths : List (List String)
deriving DecidableEq, Repr

/-- os.path.exists on this filesystem model. -/
def FS.existsPath (fs : FS) (p : List String) : Bool :=
  fs.paths.contains p

/-- Outcome of the archive download performed by save_plugin: a zip whose
entry paths are known, a corrupt zip, or a request failure. -/
inductive NetResult where
  | ok (zipEntries : List (List String))
  | badZip
  | reqError (msg : String)
deriving DecidableEq, Repr

/-- os.rename applied to one path: when the path lies under the old root,
re-root it under the new root, otherwise leave it alone. -/
def renameEntry (old new p : List String) : List String :=
  if old.isPrefixOf p then new ++ p.drop old.length else p

/-- save_plugin (lines 341-375): sanitise the version, build the plugin and
version paths, and skip with return value 0 when the version directory
already exists. Otherwise download the archive (request failure returns 1),
extract it under the plugin path (corrupt zip returns 1), and rename the
extracted top-level slug directory to the version directory. -/
def save_plugin (fs : FS) (download_dir : String) (p : PluginMeta)
    (net : NetResult) : FS × Nat :=
  let version := sanitize_version p.version
  let plugin_path := [download_dir, "plugins", p.slug]
  let version_path := [download_dir, "plugins", p.slug, version]
  if fs.existsPath version_path then (fs, 0)
  else
    match net with
    | NetResult.reqError _ => (fs, 1)
    | NetResult.badZip => (fs, 1)
    | NetResult.ok zipEntries =>
        let extracted := fs.paths ++ zipEntries.map (fun e => plugin_path ++ e)
        let renamed := extracted.map (renameEntry (plugin_path ++ [p.slug]) version_path)
        ({ paths := renamed }, 0)

section TableLemmas

variable {α : Type}

/-- Rows kept by the delete phase of INSERT OR REPLACE never match the key. -/
theorem filter_filter_not (p : α → Bool) (t : List α) :
    (t.filter (fun x => !(p x))).filter p = [] := by
  induction t with
  | nil => rfl
  | cons a t ih => cases h : p a <;> simp [List.filter_cons, h, ih]

/-- Deleting by key twice equals deleting once. -/
theorem filter_not_idem (p : α → Bool) (t : List α) :
    (t.filter (fun x => !(p x))).filter (fun x => !(p x))
      = t.filter (fun x => !(p x)) := by
  induction t with
  | nil => rfl
  | cons a t ih => cases h : p a <;> simp [List.filter_cons, h, ih]

/-- Searching by key after deleting every key match finds nothing. -/
theorem find?_filter_not (p : α → Bool) (t : List α) :
    (t.filter (fun x => !(p x))).find? p = none := by
  rw [List.find?_eq_none]
  intro x hx
  have h2 := (List.mem_filter.mp hx).2
  simp only [Bool.not_eq_true'] at h2
  simp [h2]

/-- Deleting by one key leaves a search by an incompatible key unchanged. -/
theorem find?_filter_not_of (p q : α → Bool) (t : List α)
    (h : ∀ x, q x = true → p x = false) :
    (t.filter (fun x => !(p x))).find? q = t.find? q := by
  induction t with
  | nil => rfl
  | cons a t ih =>
    cases hq : q a with
    | true =>
      have hp := h a hq
      simp [List.filter_cons, hp, List.find?_cons_of_pos, hq]
    | false =>
      cases hp : p a <;>
        simp [List.filter_cons, hp, List.find?_cons_of_neg, hq, ih]

end TableLemmas

/-- Every row matches its own primary key. -/
theorem pluginKeyMatch_self (r : PluginRow) :
    pluginKeyMatch r.slug r.version r = true := by
  simp [pluginKeyMatch]

/-- After INSERT OR REPLACE, looking up the inserted key yields the new row. -/
theorem findPluginRow_insertOrReplace_self (t : List PluginRow) (r : PluginRow) :
    findPluginRow (insertOrReplace t r) r.slug r.version = some r := by
  unfold findPluginRow insertOrReplace
  rw [List.find?_append, find?_filter_not]
  simp [List.find?_cons_of_pos, pluginKeyMatch_self]

/-- After INSERT OR REPLACE, a lookup by a different key is unchanged. -/
theorem findPluginRow_insertOrReplace_other (t : List PluginRow) (r : PluginRow)
    (s v : String) (h : ¬(s = r.slug ∧ v = r.version)) :
    findPluginRow (insertOrReplace t r) s v = findPluginRow t s v := by
  have hr : pluginKeyMatch s v r = false := by
    by_cases h1 : r.slug = s
    · by_cases h2 : r.version = v
      · exact absurd ⟨h1.symm, h2.symm⟩ h
      · simp [pluginKeyMatch, h2]
    · simp [pluginKeyMatch, h1]
  have himp : ∀ x, pluginKeyMatch s v x = true
      → pluginKeyMatch r.slug r.version x = false := by
    intro x hx
    simp only [pluginKeyMatch, Bool.and_eq_true, beq_iff_eq] at hx
    obtain ⟨e1, e2⟩ := hx
    simp only [pluginKeyMatch, Bool.and_eq_false_iff, beq_eq_false_iff_ne, ne_eq]
    by_cases h1 : x.slug = r.slug
    · right
      intro h2
      exact h ⟨by rw [← e1, h1], by rw [← e2, h2]⟩
    · left
      exact h1
  unfold findPluginRow insertOrReplace
  rw [List.find?_append, find?_filter_not_of _ _ _ himp]
  simp [List.find?_cons_of_neg, hr]

/-- After INSERT OR REPLACE, exactly one row carries the inserted key. -/
theorem countPluginRows_insertOrReplace (t : List PluginRow) (r : PluginRow) :
    countPluginRows (insertOrReplace t r) r.slug r.version = 1 := by
  unfold countPluginRows insertOrReplace
  rw [List.filter_append, filter_filter_not]
  simp [List.filter_cons, pluginKeyMatch_self]

/-- INSERT OR REPLACE with the same row twice equals doing it once. -/
theorem insertOrReplace_idem (t : List PluginRow) (r : PluginRow) :
    insertOrReplace (insertOrReplace t r) r = insertOrReplace t r := by
  unfold insertOrReplace
  rw [List.filter_append, filter_not_idem]
  simp [List.filter_cons, pluginKeyMatch_self]

/-- C1: upserting a catalog entry is idempotent. For every table state and
every plugin metadata record, a second insert_plugins_row with identical
data leaves the table exactly as after the first; after either pass the
key (slug, version) owns exactly one row, and that row is the prepared
tuple of the metadata, so re-observing the same key replaces the row and
never duplicates it. -/
theorem upsertCatalogEntry_idempotent (t : List PluginRow) (p : PluginMeta) :
    insert_plugins_row (insert_plugins_row t p) p = insert_plugins_row t p ∧
    countPluginRows (insert_plugins_row t p) p.slug p.version = 1 ∧
    countPluginRows (insert_plugins_row (insert_plugins_row t p) p)
      p.slug p.version = 1 ∧
    findPluginRow (insert_plugins_row t p) p.slug p.version
      = some (rowOfPlugin p) ∧
    findPluginRow (insert_plugins_row (insert_plugins_row t p) p)
      p.slug p.version = some (rowOfPlugin p) := by
  refine ⟨insertOrReplace_idem t (rowOfPlugin p),
    countPluginRows_insertOrReplace t (rowOfPlugin p), ?_,
    findPluginRow_insertOrReplace_self t (rowOfPlugin p), ?_⟩
  · exact countPluginRows_insertOrReplace _ (rowOfPlugin p)
  · exact findPluginRow_insertOrReplace_self _ (rowOfPlugin p)

/-- C2: re-ingesting a finding whose primary key already has a row leaves
the Audit table completely untouched, so the existing row, including a
triage flag an operator has since set to true, survives unchanged. -/
theorem upsertFinding_preserves_existing (t : List AuditRow)
    (item : SemgrepItem) (nm lv : String) (d : Int) (r : AuditRow)
    (hr : r ∈ t) (hkey : auditKey r = auditKey (rowOfItem item nm lv d)) :
    insert_result_row t item nm lv d = t ∧
    r ∈ insert_result_row t item nm lv d ∧
    (r.triaged = true → r.triaged = true) := by
  simp only [auditKey, rowOfItem, Prod.mk.injEq] at hkey
  obtain ⟨h1, h2, h3, h4, h5, h6⟩ := hkey
  have hmatch : auditKeyMatch (rowOfItem item nm lv d).slug
      (rowOfItem item nm lv d).version (rowOfItem item nm lv d).file_path
      (rowOfItem item nm lv d).check_id (rowOfItem item nm lv d).start_line
      (rowOfItem item nm lv d).end_line r = true := by
    simp [auditKeyMatch, rowOfItem, h1, h2, h3, h4, h5, h6]
  have hany : t.any (fun x => auditKeyMatch (rowOfItem item nm lv d).slug
      (rowOfItem item nm lv d).version (rowOfItem item nm lv d).file_path
      (rowOfItem item nm lv d).check_id (rowOfItem item nm lv d).start_line
      (rowOfItem item nm lv d).end_line x) = true :=
    List.any_eq_true.mpr ⟨r, hr, hmatch⟩
  unfold insert_result_row insertOrIgnore
  rw [if_pos hany]
  exact ⟨rfl, hr, fun h => h⟩

/-- A concrete semgrep result entry for exercising the finding upsert. -/
def c2item : SemgrepItem :=
  { path := "inc/a.php"
  , check_id := "php.lang.security.eval-use"
  , severity := "ERROR"
  , impact := "HIGH"
  , likelihood := "MEDIUM"
  , confidence := "HIGH"
  , start_line := 10
  , end_line := 12
  , lines := "eval(x)"
  , message := "dangerous eval" }

/-- The Audit row of c2item as first ingested on day 100, with the triage
flag since set to true by an operator. -/
def c2row : AuditRow :=
  { slug := "myplugin"
  , version := "1.0"
  , file_path := "inc/a.php"
  , check_id := "php.lang.security.eval-use"
  , severity := "ERROR"
  , impact := "HIGH"
  , likelihood := "MEDIUM"
  , confidence := "HIGH"
  , start_line := 10
  , end_line := 12
  , vuln_lines := "eval(x)"
  , message := "dangerous eval"
  , date_discovered := 100
  , triaged := true }

/-- Witness for C2: re-ingesting the identical finding on day 200 leaves
the triaged row exactly as it was. -/
theorem upsertFinding_preserves_existing_witness :
    insert_result_row [c2row] c2item "myplugin" "1.0" 200 = [c2row] ∧
    c2row ∈ insert_result_row [c2row] c2item "myplugin" "1.0" 200 ∧
    (c2row.triaged = true → c2row.triaged = true) :=
  upsertFinding_preserves_existing [c2row] c2item "myplugin" "1.0" 200 c2row
    (by simp) (by decide)

/-- C3: during the audit pass, when the remote version differs from the
local latest version L, the catalog update carrying the remote metadata M
is recorded first and the scan row second; the scan row, the one carrying
the last-scanned date, is keyed by (M.slug, L) and carries version L, while
the key (M.slug, M.version) holds the plain catalog update without the scan
date. -/
theorem audit_scan_attributed_to_local_version (t : List PluginRow)
    (M : PluginMeta) (L : String) (d : Int) (h : M.version ≠ L) :
    audit_db_step t M L d
      = insert_plugins_row (insert_plugins_row t M)
          { M with version := L, last_time_scanned := some d } ∧
    findPluginRow (audit_db_step t M L d) M.slug L
      = some (rowOfPlugin { M with version := L, last_time_scanned := some d }) ∧
    (rowOfPlugin { M with version := L, last_time_scanned := some d }).version
      = L ∧
    (rowOfPlugin
      { M with version := L, last_time_scanned := some d }).last_time_scanned
      = d ∧
    findPluginRow (audit_db_step t M L d) M.slug M.version
      = some (rowOfPlugin M) := by
  have hstep : audit_db_step t M L d
      = insert_plugins_row (insert_plugins_row t M)
          { M with version := L, last_time_scanned := some d } := by
    unfold audit_db_step
    rw [if_pos h]
  refine ⟨hstep, ?_, rfl, rfl, ?_⟩
  · rw [hstep]
    exact findPluginRow_insertOrReplace_self (insert_plugins_row t M)
      (rowOfPlugin { M with version := L, last_time_scanned := some d })
  · rw [hstep]
    have hother := findPluginRow_insertOrReplace_other (insert_plugins_row t M)
      (rowOfPlugin { M with version := L, last_time_scanned := some d })
      M.slug M.version (fun hc => h hc.2)
    exact hother.trans (findPluginRow_insertOrReplace_self t (rowOfPlugin M))

/-- Remote metadata used by the C3 witness: the registry reports version
2.0 while the local latest is 1.0. The API response has no
last_time_scanned key. -/
def c3meta : PluginMeta :=
  { slug := "wp-sample"
  , version := "2.0"
  , author := "alice"
  , active_installs := some 100
  , downloaded := some 5
  , last_updated := some 700
  , added := some 1
  , download_link := "https://example.test/wp-sample.zip"
  , last_time_scanned := none }

/-- The C3 witness metadata rewritten to the scanned version 1.0 with the
scan date 42, exactly as the audit pass mutates the fetched record. -/
def c3scan : PluginMeta :=
  { c3meta with version := "1.0", last_time_scanned := some 42 }

/-- Witness for C3 at an empty table, local version 1.0, scan date 42. -/
theorem audit_scan_attributed_to_local_version_witness :
    audit_db_step [] c3meta "1.0" 42
      = insert_plugins_row (insert_plugins_row [] c3meta) c3scan ∧
    findPluginRow (audit_db_step [] c3meta "1.0" 42) c3meta.slug "1.0"
      = some (rowOfPlugin c3scan) ∧
    (rowOfPlugin c3scan).version = "1.0" ∧
    (rowOfPlugin c3scan).last_time_scanned = 42 ∧
    findPluginRow (audit_db_step [] c3meta "1.0" 42) c3meta.slug c3meta.version
      = some (rowOfPlugin c3meta) :=
  audit_scan_attributed_to_local_version [] c3meta "1.0" 42 (by decide)

/-- C10: when the remote version differs from the local latest, the
reconciliation step re-records the key (M.slug, M.version) from the fresh
API response, whose last_time_scanned key is absent and therefore defaults
to 0; a pre-existing row under that key with a non-zero last-scanned date
is replaced, so its date is reset to 0 and the old row is gone. -/
theorem audit_reconcile_resets_last_scanned (t : List PluginRow)
    (M : PluginMeta) (L : String) (d : Int) (r : PluginRow)
    (hv : M.version ≠ L) (hnone : M.last_time_scanned = none)
    (hr : r ∈ t) (hkey : pluginKeyMatch M.slug M.version r = true)
    (hscanned : r.last_time_scanned ≠ 0) :
    findPluginRow (audit_db_step t M L d) M.slug M.version
      = some (rowOfPlugin M) ∧
    (rowOfPlugin M).last_time_scanned = 0 ∧
    r ∉ audit_db_step t M L d := by
  simp only [pluginKeyMatch, Bool.and_eq_true, beq_iff_eq] at hkey
  obtain ⟨hslug, hver⟩ := hkey
  have hzero : (rowOfPlugin M).last_time_scanned = 0 := by
    simp [rowOfPlugin, hnone]
  have hstep : audit_db_step t M L d
      = insertOrReplace (insertOrReplace t (rowOfPlugin M))
          (rowOfPlugin { M with version := L, last_time_scanned := some d }) := by
    unfold audit_db_step
    rw [if_pos hv]
    rfl
  refine ⟨?_, hzero, ?_⟩
  · have hother := findPluginRow_insertOrReplace_other
      (insertOrReplace t (rowOfPlugin M))
      (rowOfPlugin { M with version := L, last_time_scanned := some d })
      M.slug M.version (fun hc => hv hc.2)
    rw [hstep, hother]
    exact findPluginRow_insertOrReplace_self t (rowOfPlugin M)
  · rw [hstep]
    intro hmem
    rcases List.mem_append.mp hmem with hmem1 | hmem2
    · have hin := List.mem_filter.mp hmem1
      rcases List.mem_append.mp hin.1 with hmem3 | hmem4
      · have hnot := (List.mem_filter.mp hmem3).2
        simp only [pluginKeyMatch, rowOfPlugin, Bool.not_eq_true',
          Bool.and_eq_false_iff, beq_eq_false_iff_ne, ne_eq] at hnot
        rcases hnot with hns | hnv
        · exact hns hslug
        · exact hnv hver
      · have hreq : r = rowOfPlugin M := List.mem_singleton.mp hmem4
        rw [hreq] at hscanned
        exact hscanned hzero
    · have hreq : r = rowOfPlugin
          { M with version := L, last_time_scanned := some d } :=
        List.mem_singleton.mp hmem2
      have : r.version = L := by rw [hreq]; rfl
      rw [hver] at this
      exact hv this

/-- Remote metadata used by the C10 witness: version 3.1 on the registry,
no last_time_scanned key in the API response. -/
def c10meta : PluginMeta :=
  { slug := "acme-widgets"
  , version := "3.1"
  , author := "bob"
  , active_installs := some 10
  , downloaded := some 2
  , last_updated := some 600
  , added := some 2
  , download_link := "https://example.test/acme-widgets.zip"
  , last_time_scanned := none }

/-- A pre-existing catalog row for (acme-widgets, 3.1) whose last-scanned
date was set to day 99 by an earlier audit. -/
def c10old : PluginRow :=
  { slug := "acme-widgets"
  , version := "3.1"
  , author := "bob"
  , active_installs := 10
  , downloaded := 2
  , last_updated := some 600
  , added_date := some 2
  , download_link := "https://example.test/acme-widgets.zip"
  , last_time_scanned := 99 }

/-- Witness for C10: the audit of local version 3.0 on day 50 replaces the
(acme-widgets, 3.1) row and resets its last-scanned date to 0. -/
theorem audit_reconcile_resets_last_scanned_witness :
    findPluginRow (audit_db_step [c10old] c10meta "3.0" 50)
      c10meta.slug c10meta.version = some (rowOfPlugin c10meta) ∧
    (rowOfPlugin c10meta).last_time_scanned = 0 ∧
    c10old ∉ audit_db_step [c10old] c10meta "3.0" 50 :=
  audit_reconcile_resets_last_scanned [c10old] c10meta "3.0" 50 c10old
    (by decide) rfl (by simp) (by decide) (by decide)

/-- A catalog row whose last_updated lies 500 days before day 1000, used to
show that get_filtered_plugins ignores the months argument. -/
def c4row : PluginRow :=
  { slug := "stale-plugin"
  , version := "1.0"
  , author := "carol"
  , active_installs := 1000
  , downloaded := 0
  , last_updated := some 500
  , added_date := none
  , download_link := "https://example.test/stale-plugin.zip"
  , last_time_scanned := 0 }

/-- C4, evaluated at the failing input: with maxStalenessMonths 12 the
claim admits only rows updated within 360 days, yet the query keeps a row
500 days old, because the threshold is built from the literal 24 and not
from the supplied argument. -/
theorem get_filtered_plugins_ignores_months_argument :
    get_filtered_plugins [c4row] none (some 12) none 1000 = ["stale-plugin"] ∧
    (1000 : Int) - 500 > 12 * 30 := by
  exact ⟨by decide, by decide⟩

/-- C5, evaluated at the failing inputs: when the bulk slug listing fails
(non-200 status or request exception), get_slugs_from_svn returns None and
the very next line of download_plugins applies len to it, raising a
TypeError that no caller catches; the paginated first page behaves the same
under subscripting. The run aborts instead of continuing. -/
theorem download_enumeration_typeerror_on_fetch_failure :
    (∀ c : Nat, download_plugins_bulk_enumerate (HttpOutcome.httpStatus c)
      = Except.error "TypeError: object of type NoneType has no len()") ∧
    (∀ m : String, download_plugins_bulk_enumerate (HttpOutcome.requestExc m)
      = Except.error "TypeError: object of type NoneType has no len()") ∧
    download_plugins_filtered_enumerate (none : Option WpApiPage)
      = Except.error "TypeError: NoneType object is not subscriptable" :=
  ⟨fun _ => rfl, fun _ => rfl, rfl⟩

/-- C6: the download-pass filter accepts a plugin whose last-updated
timestamp is exactly months * 30 days in the past (with the install minimum
met), and rejects one whose timestamp is one day older, whatever its other
fields. -/
theorem filter_policy_staleness_boundary (today months minInstalls : Int)
    (p : PluginMeta) :
    download_pass_filter today months minInstalls
      { p with last_updated := some (today - months * 30),
               active_installs := some minInstalls } = true ∧
    download_pass_filter today months minInstalls
      { p with last_updated := some (today - (months * 30 + 1)) } = false := by
  constructor
  · simp only [download_pass_filter]
    rw [if_neg (by omega)]
    simp
  · simp only [download_pass_filter]
    rw [if_pos (by omega)]

/-- C7: when the version directory already exists in the local store,
save_plugin returns success without touching the filesystem, and its result
does not depend on the network at all, so no download is performed. -/
theorem materialize_noop_when_version_present (fs : FS) (dd : String)
    (p : PluginMeta) (net net' : NetResult)
    (h : fs.existsPath [dd, "plugins", p.slug, sanitize_version p.version]
      = true) :
    save_plugin fs dd p net = (fs, 0) ∧
    save_plugin fs dd p net = save_plugin fs dd p net' := by
  constructor <;> simp [save_plugin, h]

/-- Plugin metadata for the C7 witness. -/
def c7meta : PluginMeta :=
  { slug := "acme-forms"
  , version := "1.0"
  , author := "dave"
  , active_installs := some 60
  , downloaded := some 1
  , last_updated := some 650
  , added := some 3
  , download_link := "https://example.test/acme-forms.zip"
  , last_time_scanned := none }

/-- A filesystem already holding the version directory of c7meta. -/
def c7fs : FS :=
  { paths := [["d", "plugins", "acme-forms", "1.0"]] }

/-- Witness for C7: with the version directory present, save_plugin is a
no-op returning 0, identically for a corrupt zip and for a good archive. -/
theorem materialize_noop_when_version_present_witness :
    save_plugin c7fs "d" c7meta NetResult.badZip = (c7fs, 0) ∧
    save_plugin c7fs "d" c7meta NetResult.badZip
      = save_plugin c7fs "d" c7meta (NetResult.ok [["acme-forms", "x.php"]]) :=
  materialize_noop_when_version_present c7fs "d" c7meta NetResult.badZip
    (NetResult.ok [["acme-forms", "x.php"]]) (by decide)

/-- C8: the audit pass takes the head of the version list sorted in reverse
lexical order; for the on-disk versions 1.0, 1.2 and 1.10 it selects 1.2,
which no listed version exceeds lexically. -/
theorem latest_local_version_reverse_lexical :
    local_last_version ["1.0", "1.2", "1.10"] = some "1.2" ∧
    sortVersionsDesc ["1.0", "1.2", "1.10"] = ["1.2", "1.10", "1.0"] ∧
    (["1.0", "1.2", "1.10"].all
      (fun v => !(pyStrLt "1.2".data v.data))) = true := by
  exact ⟨by decide, by decide, by decide⟩

/-- A catalog row for the C9 scenario with a last-scanned date set. -/
def c9row1 : PluginRow :=
  { slug := "p1"
  , version := "1.0"
  , author := "erin"
  , active_installs := 70
  , downloaded := 7
  , last_updated := some 900
  , added_date := some 4
  , download_link := "https://example.test/p1.zip"
  , last_time_scanned := 77 }

/-- A catalog row for the C9 scenario with no last-scanned date. -/
def c9row2 : PluginRow :=
  { slug := "p2"
  , version := "2.0"
  , author := "frank"
  , active_installs := 80
  , downloaded := 8
  , last_updated := some 950
  , added_date := some 5
  , download_link := "https://example.test/p2.zip"
  , last_time_scanned := 0 }

/-- A sample finding for the C9 scenario, one per start line. -/
def sampleFinding (n : Int) : AuditRow :=
  { slug := "p1"
  , version := "1.0"
  , file_path := "f.php"
  , check_id := "rule"
  , severity := "ERROR"
  , impact := "HIGH"
  , likelihood := "LOW"
  , confidence := "HIGH"
  , start_line := n
  , end_line := n
  , vuln_lines := "x"
  , message := "m"
  , date_discovered := 1
  , triaged := false }

/-- The C9 scenario store: 3 findings and 2 catalog rows, one of which has
its last-scanned date set. -/
def c9db : DB :=
  { plugins := [c9row1, c9row2]
  , audit := [sampleFinding 1, sampleFinding 2, sampleFinding 3] }

/-- C9: clear-results empties the findings table and resets the
last-scanned date of every catalog row to 0, leaving every other field of
every catalog row unchanged; on the scenario store with 3 findings and 2
catalog rows this yields 0 findings and the 2 rows with only the
last-scanned date cleared. -/
theorem clear_results_resets_scans_only (db : DB) :
    (clear_results db).audit = [] ∧
    (clear_results db).plugins.length = db.plugins.length ∧
    List.Forall₂ (fun r r' : PluginRow =>
      r'.slug = r.slug ∧ r'.version = r.version ∧ r'.author = r.author ∧
      r'.active_installs = r.active_installs ∧ r'.downloaded = r.downloaded ∧
      r'.last_updated = r.last_updated ∧ r'.added_date = r.added_date ∧
      r'.download_link = r.download_link ∧ r'.last_time_scanned = 0)
      db.plugins (clear_results db).plugins ∧
    (clear_results c9db).audit.length = 0 ∧
    (clear_results c9db).plugins
      = [{ c9row1 with last_time_scanned := 0 },
         { c9row2 with last_time_scanned := 0 }] := by
  refine ⟨rfl, ?_, ?_, rfl, by decide⟩
  · simp [clear_results]
  · simp only [clear_results]
    rw [List.forall₂_map_right_iff]
    rw [List.forall₂_same]
    intro r _
    exact ⟨rfl, rfl, rfl, rfl, rfl, rfl, rfl, rfl, rfl⟩

end WpAudit
